import Mathlib

/-!
Verification of the QR-Overlay core (src/app.py) against its specification.

The embedding models the three core functions of `app.py`:

* `read_csv_column_by_name` — CSV column extraction.  The Python code first
  decodes the raw bytes strictly as UTF-8 (`data = file_storage.read().decode("utf-8")`),
  then sniffs a delimiter and parses with `csv.reader`, and finally walks the
  parsed rows.  The delimiter sniffing and CSV tokenisation are third-party
  library behaviour (`csv.Sniffer`, `csv.reader`), so the embedding splits the
  function in two layers:
  - `utf8Decode` is a faithful strict UTF-8 decoder (rejecting invalid lead and
    continuation bytes, overlong encodings, surrogates and out-of-range code
    points, exactly as Python's strict `decode("utf-8")` does);
  - `read_csv_column_rows` embeds lines 38–63 of app.py, the part of the
    function downstream of `all_rows = list(reader)`, operating on the parsed
    table `all_rows : List (List String)`;
  - `read_csv_column_by_name` composes the two around an arbitrary parse
    function standing for the csv library (sniffer + reader).

* `build_overlay_vector` — overlay construction.  The canvas / segno / svglib
  calls are library behaviour; the drawing returned by `svg2rlg` (possibly
  `None`) is an input of the embedding, carrying its natural width and height.
  All the arithmetic of lines 100–121 (the fit scale, the rendered size, the
  centring offsets and the draw position) is embedded exactly, over `ℚ`
  (exact arithmetic in place of Python floats).

* `place_qrs_on_pdf_stream` — the merge loop, lines 128–154.  Pages are the
  source document's page geometries; the segno + svglib pipeline that can fail
  on a payload is a parameter `encode : String → Except String (Option Drawing)`,
  where `Except.error msg` stands for a raised exception with message `msg`
  (the code has no try/except in the loop so an exception propagates as-is)
  and `Except.ok none` stands for `svg2rlg` returning `None`.
  Python strings are modelled by `String`, `str.strip()` by `pyStrip`.
-/

/-- Equality of `Except` values is decidable when it is on both sides;
used to evaluate the embedded functions on concrete inputs. -/
instance {ε α : Type} [DecidableEq ε] [DecidableEq α] : DecidableEq (Except ε α)
  | Except.error e, Except.error f =>
    if h : e = f then isTrue (by rw [h]) else isFalse (fun hh => by cases hh; exact h rfl)
  | Except.error _, Except.ok _ => isFalse (fun hh => by cases hh)
  | Except.ok _, Except.error _ => isFalse (fun hh => by cases hh)
  | Except.ok a, Except.ok b =>
    if h : a = b then isTrue (by rw [h]) else isFalse (fun hh => by cases hh; exact h rfl)

/-- Python's `str.strip()`: the string with leading and trailing whitespace
characters removed (over the ASCII whitespace `Char.isWhitespace` covers;
computed on the string's character list so that it evaluates by `decide`). -/
def pyStrip (s : String) : String :=
  ⟨((s.data.dropWhile Char.isWhitespace).reverse.dropWhile Char.isWhitespace).reverse⟩

/-- Error kinds of the CSV extractor, named after the spec's taxonomy.
`emptyTable` is app.py's `ValueError("CSV is empty")` (line 41),
`columnNotFound` is the `ValueError` of line 48, and `decodeError` is the
`UnicodeDecodeError` that a strict `decode("utf-8")` raises on line 26. -/
inductive CsvError where
  | emptyTable
  | columnNotFound
  | decodeError
deriving DecidableEq, Repr

/-- Strict UTF-8 decoding of a byte list into a list of Unicode scalar values,
as Python's `bytes.decode("utf-8")` performs it: `none` models a raised
`UnicodeDecodeError`.  Rejects continuation bytes in lead position, the
overlong leads `0xC0`/`0xC1`, truncated sequences, non-continuation trail
bytes, overlong 3- and 4-byte forms, surrogates (`0xED A0..BF`), and code
points above `0x10FFFF` (leads `0xF5..0xFF`, and `0xF4` with a second byte
`≥ 0x90`). -/
def utf8Decode : List Nat → Option (List Nat)
  | [] => some []
  | b :: rest =>
    if b < 0x80 then
      (utf8Decode rest).map (fun cs => b :: cs)
    else if b < 0xC2 then
      none
    else if b < 0xE0 then
      match rest with
      | b1 :: rest1 =>
        if 0x80 ≤ b1 ∧ b1 < 0xC0 then
          (utf8Decode rest1).map (fun cs => ((b - 0xC0) * 0x40 + (b1 - 0x80)) :: cs)
        else none
      | [] => none
    else if b < 0xF0 then
      match rest with
      | b1 :: b2 :: rest2 =>
        if (0x80 ≤ b1 ∧ b1 < 0xC0) ∧ (0x80 ≤ b2 ∧ b2 < 0xC0) ∧
            (b = 0xE0 → 0xA0 ≤ b1) ∧ (b = 0xED → b1 < 0xA0) then
          (utf8Decode rest2).map
            (fun cs => ((b - 0xE0) * 0x1000 + (b1 - 0x80) * 0x40 + (b2 - 0x80)) :: cs)
        else none
      | _ => none
    else if b < 0xF5 then
      match rest with
      | b1 :: b2 :: b3 :: rest3 =>
        if (0x80 ≤ b1 ∧ b1 < 0xC0) ∧ (0x80 ≤ b2 ∧ b2 < 0xC0) ∧ (0x80 ≤ b3 ∧ b3 < 0xC0) ∧
            (b = 0xF0 → 0x90 ≤ b1) ∧ (b = 0xF4 → b1 < 0x90) then
          (utf8Decode rest3).map
            (fun cs =>
              ((b - 0xF0) * 0x40000 + (b1 - 0x80) * 0x1000 + (b2 - 0x80) * 0x40 + (b3 - 0x80)) :: cs)
        else none
      | _ => none
    else none

/-- Lines 38–63 of `read_csv_column_by_name` in app.py, downstream of
`all_rows = list(reader)`: raise on an empty table, strip the header cells,
resolve the stripped column name against the stripped header (raising when
absent), then map each data row to its value in the resolved column —
an empty row or a row not reaching the column index yields `""`, any other
row yields its cell stripped of surrounding whitespace. -/
def read_csv_column_rows (all_rows : List (List String)) (column_name : String) :
    Except CsvError (List String) :=
  match all_rows with
  | [] => Except.error CsvError.emptyTable
  | header :: dataRows =>
    let cleaned_headers := header.map pyStrip
    if cleaned_headers.contains (pyStrip column_name) = false then
      Except.error CsvError.columnNotFound
    else
      let column_index := cleaned_headers.indexOf (pyStrip column_name)
      Except.ok (dataRows.map (fun row =>
        if row.length = 0 then ""
        else if column_index ≥ row.length then ""
        else pyStrip (row.getD column_index "")))

/-- The whole of `read_csv_column_by_name` (lines 20–63): strict UTF-8
decoding of the raw bytes first, then delimiter sniffing and CSV
tokenisation — library behaviour abstracted as `parse` — then the row walk
of `read_csv_column_rows`. -/
def read_csv_column_by_name (parse : List Nat → List (List String))
    (raw : List Nat) (column_name : String) : Except CsvError (List String) :=
  match utf8Decode raw with
  | none => Except.error CsvError.decodeError
  | some text => read_csv_column_rows (parse text) column_name

/-- The drawing returned by `svg2rlg`, carrying its natural (un-scaled)
dimensions (`drawing.width`, `drawing.height` in app.py). -/
structure Drawing where
  width : ℚ
  height : ℚ
deriving DecidableEq, Repr

/-- A symbol as drawn on the overlay: its rendered size after the uniform fit
scaling, and the origin passed to `renderPDF.draw`. -/
structure QrSymbol where
  width : ℚ
  height : ℚ
  originX : ℚ
  originY : ℚ
deriving DecidableEq, Repr

/-- The single-page overlay PDF produced by `build_overlay_vector`: a page of
the requested dimensions carrying at most one drawn symbol (none when
`svg2rlg` returned `None`). -/
structure Overlay where
  pageWidth : ℚ
  pageHeight : ℚ
  symbol : Option QrSymbol
deriving DecidableEq, Repr

/-- Lines 86–125 of app.py (`build_overlay_vector`): a blank canvas of the
page's dimensions; when the drawing exists, the fit scale
`min (qr_size / natural_width) (qr_size / natural_height)` is applied to both
axes, and the scaled symbol is drawn at
`(x_pos + (qr_size - rendered_width)/2, y_pos + (qr_size - rendered_height)/2)`;
when `svg2rlg` returned `None` the canvas is saved with nothing drawn. -/
def build_overlay_vector (page_width page_height : ℚ) (drawing : Option Drawing)
    (qr_size x_pos y_pos : ℚ) : Overlay :=
  match drawing with
  | none => ⟨page_width, page_height, none⟩
  | some d =>
    let natural_width := d.width
    let natural_height := d.height
    let scale_factor := min (qr_size / natural_width) (qr_size / natural_height)
    let rendered_width := natural_width * scale_factor
    let rendered_height := natural_height * scale_factor
    let offset_x := (qr_size - rendered_width) / 2
    let offset_y := (qr_size - rendered_height) / 2
    ⟨page_width, page_height,
      some ⟨rendered_width, rendered_height, x_pos + offset_x, y_pos + offset_y⟩⟩

/-- A source page of the input PDF: its media-box geometry, as read by
`float(media_box.width)` / `float(media_box.height)`. -/
structure SrcPage where
  width : ℚ
  height : ℚ
deriving DecidableEq, Repr, Inhabited

/-- A page of the output document: the source page it came from, plus the
overlay merged onto it by `page.merge_page(overlay_page)`, if any. -/
structure OutPage where
  src : SrcPage
  overlay : Option Overlay
deriving DecidableEq, Repr, Inhabited

/-- The loop of lines 135–149 of app.py over `zip(csv_rows, reader.pages)`:
for each pair, when the row value is truthy and strips to a non-empty string,
run the segno + svglib pipeline (`encode`; an exception aborts everything),
build the overlay from this page's own geometry and merge it onto the page;
in every case append the page to the writer's page list. -/
def mergePages (encode : String → Except String (Option Drawing))
    (qr_size x_pos y_pos : ℚ) :
    List (String × SrcPage) → Except String (List OutPage)
  | [] => Except.ok []
  | (row_data, page) :: rest =>
    if row_data ≠ "" ∧ pyStrip row_data ≠ "" then
      match encode row_data with
      | Except.error e => Except.error e
      | Except.ok drawing =>
        let ov := build_overlay_vector page.width page.height drawing qr_size x_pos y_pos
        match mergePages encode qr_size x_pos y_pos rest with
        | Except.error e => Except.error e
        | Except.ok out => Except.ok (⟨page, some ov⟩ :: out)
    else
      match mergePages encode qr_size x_pos y_pos rest with
      | Except.error e => Except.error e
      | Except.ok out => Except.ok (⟨page, none⟩ :: out)

/-- Lines 128–154 of app.py (`place_qrs_on_pdf_stream`): check that the CSV
row count equals the page count (raising `ValueError` otherwise, before the
loop), then run the merge loop; the output buffer is written only after the
loop completes, so an error yields no output at all. -/
def place_qrs_on_pdf_stream (encode : String → Except String (Option Drawing))
    (pages : List SrcPage) (csv_rows : List String)
    (qr_size x_pos y_pos : ℚ) : Except String (List OutPage) :=
  if csv_rows.length ≠ pages.length then
    Except.error "CSV rows and PDF pages count must match."
  else
    mergePages encode qr_size x_pos y_pos (csv_rows.zip pages)


/-- Stripping the empty string gives the empty string. -/
theorem pyStrip_empty : pyStrip "" = "" := rfl

/-- A string whose strip is non-empty is itself non-empty. -/
theorem ne_empty_of_pyStrip_ne_empty {s : String} (h : pyStrip s ≠ "") : s ≠ "" :=
  fun hs => h (by rw [hs]; rfl)

/-- `getD` on a mapped list, below the length. -/
theorem getD_map_of_lt {α β : Type} (f : α → β) :
    ∀ (l : List α) (i : ℕ), i < l.length → ∀ (d : α) (d' : β),
      (l.map f).getD i d' = f (l.getD i d) := by
  intro l
  induction l with
  | nil => intro i hi; simp at hi
  | cons a t ih =>
    intro i hi d d'
    cases i with
    | zero => simp
    | succ n =>
      simp only [List.map_cons, List.getD_cons_succ]
      exact ih n (by simpa using hi) d d'

/-- `getD` on a zipped list, below both lengths. -/
theorem getD_zip_of_lt {α β : Type} :
    ∀ (l1 : List α) (l2 : List β) (i : ℕ), i < l1.length → i < l2.length →
      ∀ (d1 : α) (d2 : β), (l1.zip l2).getD i (d1, d2) = (l1.getD i d1, l2.getD i d2) := by
  intro l1
  induction l1 with
  | nil => intro l2 i hi; simp at hi
  | cons a t ih =>
    intro l2 i h1 h2 d1 d2
    cases l2 with
    | nil => simp at h2
    | cons b t2 =>
      cases i with
      | zero => simp [List.zip_cons_cons]
      | succ n =>
        simp only [List.zip_cons_cons, List.getD_cons_succ]
        exact ih t2 n (by simpa using h1) (by simpa using h2) d1 d2

/-- When every payload encodes successfully, the merge loop succeeds and
produces one output page per input pair, in order, overlaying exactly the
pairs whose payload strips to a non-empty string. -/
theorem mergePages_ok_spec (encode : String → Except String (Option Drawing)) (s x y : ℚ) :
    ∀ l : List (String × SrcPage),
      (∀ p ∈ l, ∃ v, encode p.1 = Except.ok v) →
      ∃ out, mergePages encode s x y l = Except.ok out ∧
        out.length = l.length ∧
        ∀ i, i < l.length →
          (out.getD i default).src = (l.getD i ("", default)).2 ∧
          ((out.getD i default).overlay.isSome = true ↔ pyStrip (l.getD i ("", default)).1 ≠ "") := by
  intro l
  induction l with
  | nil => exact fun _ => ⟨[], rfl, rfl, fun i hi => absurd hi (by simp)⟩
  | cons hd t ih =>
    intro henc
    obtain ⟨out', hout', hlen', hspec'⟩ := ih (fun p hp => henc p (List.mem_cons_of_mem _ hp))
    obtain ⟨row, page⟩ := hd
    by_cases hrow : row ≠ "" ∧ pyStrip row ≠ ""
    · obtain ⟨v, hv⟩ := henc (row, page) (List.mem_cons_self _ _)
      refine ⟨⟨page, some (build_overlay_vector page.width page.height v s x y)⟩ :: out', ?_, ?_, ?_⟩
      · simp only [mergePages, if_pos hrow, hv, hout']
      · simpa using hlen'
      · intro i hi
        cases i with
        | zero => exact ⟨rfl, by simp [hrow.2]⟩
        | succ n =>
          simp only [List.getD_cons_succ]
          exact hspec' n (by simpa using hi)
    · have hstrip : pyStrip row = "" := by
        rcases not_and_or.mp hrow with h | h
        · rw [not_not.mp h]; rfl
        · exact not_not.mp h
      refine ⟨⟨page, none⟩ :: out', ?_, ?_, ?_⟩
      · simp only [mergePages, if_neg hrow, hout']
      · simpa using hlen'
      · intro i hi
        cases i with
        | zero => exact ⟨rfl, by simp [hstrip]⟩
        | succ n =>
          simp only [List.getD_cons_succ]
          exact hspec' n (by simpa using hi)

/-- Claim C1: for a source document with `P` pages and a column-values list of
length `P`, `place_qrs_on_pdf_stream` (when every payload encodes without an
exception) returns an output document of exactly `P` pages in source order;
page `i` carries a merged overlay iff `csv_rows[i]` stripped of whitespace is
non-empty, and pages with an empty aligned value are appended unchanged,
never dropped. -/
theorem place_qrs_page_count_and_overlay
    (encode : String → Except String (Option Drawing))
    (pages : List SrcPage) (rows : List String) (s x y : ℚ)
    (hlen : rows.length = pages.length)
    (henc : ∀ r : String, ∃ v, encode r = Except.ok v) :
    ∃ out, place_qrs_on_pdf_stream encode pages rows s x y = Except.ok out ∧
      out.length = pages.length ∧
      ∀ i, i < pages.length →
        (out.getD i default).src = pages.getD i default ∧
        ((out.getD i default).overlay.isSome = true ↔ pyStrip (rows.getD i "") ≠ "") := by
  obtain ⟨out, hout, hlen', hspec⟩ :=
    mergePages_ok_spec encode s x y (rows.zip pages) (fun p _ => henc p.1)
  refine ⟨out, ?_, ?_, ?_⟩
  · simp [place_qrs_on_pdf_stream, hlen, hout]
  · rw [hlen']; simp [List.length_zip, hlen]
  · intro i hi
    have hir : i < rows.length := by omega
    have hiz : i < (rows.zip pages).length := by simp [List.length_zip]; omega
    have h := hspec i hiz
    rwa [getD_zip_of_lt rows pages i hir hi] at h

/-- Claim C1 witness: a 3-page document with values `["123", "", "456"]`. -/
theorem place_qrs_page_count_and_overlay_witness :
    (["123", "", "456"] : List String).length
        = ([⟨612, 792⟩, ⟨612, 792⟩, ⟨612, 792⟩] : List SrcPage).length ∧
    ∃ out,
      place_qrs_on_pdf_stream (fun _ => Except.ok (some ⟨21, 21⟩))
          [⟨612, 792⟩, ⟨612, 792⟩, ⟨612, 792⟩] ["123", "", "456"] 80 36 36 = Except.ok out ∧
      out.length = ([⟨612, 792⟩, ⟨612, 792⟩, ⟨612, 792⟩] : List SrcPage).length ∧
      ∀ i, i < ([⟨612, 792⟩, ⟨612, 792⟩, ⟨612, 792⟩] : List SrcPage).length →
        (out.getD i default).src = ([⟨612, 792⟩, ⟨612, 792⟩, ⟨612, 792⟩] : List SrcPage).getD i default ∧
        ((out.getD i default).overlay.isSome = true
          ↔ pyStrip ((["123", "", "456"] : List String).getD i "") ≠ "") :=
  ⟨rfl, place_qrs_page_count_and_overlay _ _ _ _ _ _ rfl (fun _ => ⟨some ⟨21, 21⟩, rfl⟩)⟩

/-- Claim C2: whenever the column-values count differs from the page count,
`place_qrs_on_pdf_stream` fails with the row-count-mismatch error, whatever
the per-page encoding pipeline would have done: the failure is decided before
any page is composited or written. -/
theorem place_qrs_row_count_mismatch
    (encode : String → Except String (Option Drawing))
    (pages : List SrcPage) (rows : List String) (s x y : ℚ)
    (hmm : rows.length ≠ pages.length) :
    place_qrs_on_pdf_stream encode pages rows s x y
      = Except.error "CSV rows and PDF pages count must match." := by
  simp [place_qrs_on_pdf_stream, hmm]

/-- Claim C2 witness: 2 values against 3 pages, with a pipeline that would
fail on every payload, still yields exactly the mismatch error. -/
theorem place_qrs_row_count_mismatch_witness :
    (["a", "b"] : List String).length ≠ ([⟨612, 792⟩, ⟨612, 792⟩, ⟨612, 792⟩] : List SrcPage).length ∧
    place_qrs_on_pdf_stream (fun _ => Except.error "pipeline exception")
        [⟨612, 792⟩, ⟨612, 792⟩, ⟨612, 792⟩] ["a", "b"] 80 36 36
      = Except.error "CSV rows and PDF pages count must match." :=
  ⟨by decide, place_qrs_row_count_mismatch _ _ _ _ _ _ (by decide)⟩

/-- Claim C3: on a well-formed table (a header row plus `N` data rows) whose
header resolves the requested column, the extractor returns exactly `N`
strings in source row order; an empty row, or a row whose cell count does not
reach the column index, yields `""`, and any other row yields its target cell
stripped of surrounding whitespace. -/
theorem read_csv_column_rows_alignment (header : List String)
    (dataRows : List (List String)) (col : String)
    (hcol : (header.map pyStrip).contains (pyStrip col) = true) :
    ∃ out, read_csv_column_rows (header :: dataRows) col = Except.ok out ∧
      out.length = dataRows.length ∧
      ∀ i, i < dataRows.length →
        (dataRows.getD i [] = [] → out.getD i "" = "") ∧
        ((dataRows.getD i []).length ≤ (header.map pyStrip).indexOf (pyStrip col) →
          out.getD i "" = "") ∧
        ((header.map pyStrip).indexOf (pyStrip col) < (dataRows.getD i []).length →
          out.getD i "" = pyStrip ((dataRows.getD i []).getD ((header.map pyStrip).indexOf (pyStrip col)) "")) := by
  refine ⟨dataRows.map (fun row =>
      if row.length = 0 then ""
      else if (header.map pyStrip).indexOf (pyStrip col) ≥ row.length then ""
      else pyStrip (row.getD ((header.map pyStrip).indexOf (pyStrip col)) "")),
    by simp only [read_csv_column_rows, hcol]; simp, by simp, ?_⟩
  intro i hi
  rw [getD_map_of_lt _ dataRows i hi [] ""]
  refine ⟨fun hrow => ?_, fun hle => ?_, fun hlt => ?_⟩
  · rw [hrow]
    rfl
  · by_cases h0 : (dataRows.getD i []).length = 0
    · rw [if_pos h0]
    · rw [if_neg h0, if_pos (show (header.map pyStrip).indexOf (pyStrip col) ≥ (dataRows.getD i []).length from hle)]
  · have h0 : (dataRows.getD i []).length ≠ 0 := by omega
    rw [if_neg h0, if_neg (show ¬ (header.map pyStrip).indexOf (pyStrip col) ≥ (dataRows.getD i []).length from not_le.mpr hlt)]

/-- Claim C3 witness: the spec's scenario — header `Name,Code`, rows
`A,123` / `B,` / `C,456`, column `Code`. -/
theorem read_csv_column_rows_alignment_witness :
    ((["Name", "Code"] : List String).map pyStrip).contains (pyStrip "Code") = true ∧
    ∃ out, read_csv_column_rows [["Name", "Code"], ["A", "123"], ["B", ""], ["C", "456"]] "Code"
        = Except.ok out ∧
      out.length = ([["A", "123"], ["B", ""], ["C", "456"]] : List (List String)).length ∧
      ∀ i, i < ([["A", "123"], ["B", ""], ["C", "456"]] : List (List String)).length →
        (([["A", "123"], ["B", ""], ["C", "456"]] : List (List String)).getD i [] = [] →
          out.getD i "" = "") ∧
        ((([["A", "123"], ["B", ""], ["C", "456"]] : List (List String)).getD i []).length
            ≤ ((["Name", "Code"] : List String).map pyStrip).indexOf (pyStrip "Code") →
          out.getD i "" = "") ∧
        (((["Name", "Code"] : List String).map pyStrip).indexOf (pyStrip "Code")
            < (([["A", "123"], ["B", ""], ["C", "456"]] : List (List String)).getD i []).length →
          out.getD i "" = pyStrip ((([["A", "123"], ["B", ""], ["C", "456"]] : List (List String)).getD i []).getD
            (((["Name", "Code"] : List String).map pyStrip).indexOf (pyStrip "Code")) "")) :=
  ⟨by decide, read_csv_column_rows_alignment _ _ _ (by decide)⟩

/-- Claim C4: in vector mode the overlay builder computes the single factor
`min (qr_size / natural_width) (qr_size / natural_height)` and applies it to
both axes, so for positive natural dimensions the rendered width and height
never exceed the box size — the symbol is fitted uniformly, never stretched
anisotropically. -/
theorem build_overlay_vector_fits_box (pw ph : ℚ) (d : Drawing) (s x y : ℚ)
    (hw : 0 < d.width) (hh : 0 < d.height) :
    ∃ sym, (build_overlay_vector pw ph (some d) s x y).symbol = some sym ∧
      sym.width = d.width * min (s / d.width) (s / d.height) ∧
      sym.height = d.height * min (s / d.width) (s / d.height) ∧
      sym.width ≤ s ∧ sym.height ≤ s := by
  refine ⟨_, rfl, rfl, rfl, ?_, ?_⟩
  · calc d.width * min (s / d.width) (s / d.height)
        ≤ d.width * (s / d.width) :=
          mul_le_mul_of_nonneg_left (min_le_left _ _) hw.le
      _ = s := by rw [mul_comm]; exact div_mul_cancel₀ s (ne_of_gt hw)
  · calc d.height * min (s / d.width) (s / d.height)
        ≤ d.height * (s / d.height) :=
          mul_le_mul_of_nonneg_left (min_le_right _ _) hh.le
      _ = s := by rw [mul_comm]; exact div_mul_cancel₀ s (ne_of_gt hh)

/-- Claim C4 witness: a 21×21 natural drawing in an 80-point box. -/
theorem build_overlay_vector_fits_box_witness :
    (0 : ℚ) < (Drawing.mk 21 21).width ∧ (0 : ℚ) < (Drawing.mk 21 21).height ∧
    ∃ sym, (build_overlay_vector 612 792 (some (Drawing.mk 21 21)) 80 36 36).symbol = some sym ∧
      sym.width = (Drawing.mk 21 21).width * min (80 / (Drawing.mk 21 21).width) (80 / (Drawing.mk 21 21).height) ∧
      sym.height = (Drawing.mk 21 21).height * min (80 / (Drawing.mk 21 21).width) (80 / (Drawing.mk 21 21).height) ∧
      sym.width ≤ 80 ∧ sym.height ≤ 80 :=
  ⟨by norm_num, by norm_num,
    build_overlay_vector_fits_box 612 792 (Drawing.mk 21 21) 80 36 36 (by norm_num) (by norm_num)⟩

/-- Claim C5: the overlay page has exactly the requested page dimensions, and
the symbol of rendered size `(w, h)` is drawn at origin
`(x + (qr_size - w) / 2, y + (qr_size - h) / 2)`, centred in the
`qr_size × qr_size` box anchored at `(x, y)` on both axes. -/
theorem build_overlay_vector_centering (pw ph : ℚ) (d : Drawing) (s x y : ℚ) :
    (build_overlay_vector pw ph (some d) s x y).pageWidth = pw ∧
    (build_overlay_vector pw ph (some d) s x y).pageHeight = ph ∧
    ∃ sym, (build_overlay_vector pw ph (some d) s x y).symbol = some sym ∧
      sym.originX = x + (s - sym.width) / 2 ∧
      sym.originY = y + (s - sym.height) / 2 :=
  ⟨rfl, rfl, _, rfl, rfl, rfl⟩

/-- Claim C9: when `svg2rlg` yields no drawing, `build_overlay_vector` does
not fail: it returns an overlay page of exactly the requested dimensions with
no symbol drawn at all. -/
theorem build_overlay_vector_none_drawing (pw ph s x y : ℚ) :
    build_overlay_vector pw ph none s x y = ⟨pw, ph, none⟩ :=
  rfl

/-- Claim C7: the extractor fails with `columnNotFound` exactly when the
stripped column name is absent from the stripped header row; in particular
`"Code "` (trailing blank) resolves against the exact header `"Code"`, and
the lookup is case-sensitive (`"code"` does not match `"Code"`). -/
theorem read_csv_column_rows_column_not_found :
    (∀ (header : List String) (dataRows : List (List String)) (col : String),
      read_csv_column_rows (header :: dataRows) col = Except.error CsvError.columnNotFound ↔
        (header.map pyStrip).contains (pyStrip col) = false) ∧
    read_csv_column_rows [["Name", "Code"], ["A", "123"]] "Code " = Except.ok ["123"] ∧
    read_csv_column_rows [["Code"], ["x"]] "code" = Except.error CsvError.columnNotFound := by
  refine ⟨fun header dataRows col => ?_, by decide, by decide⟩
  by_cases hc : (header.map pyStrip).contains (pyStrip col) = false
  · simp [read_csv_column_rows, hc]
  · simp [read_csv_column_rows, hc]

/-- Claim C8: the extractor fails with `emptyTable` exactly when the parsed
input has zero rows; with at least one row it proceeds to header resolution
and never reports `emptyTable`. -/
theorem read_csv_column_rows_empty_table (rows : List (List String)) (col : String) :
    read_csv_column_rows rows col = Except.error CsvError.emptyTable ↔ rows = [] := by
  cases rows with
  | nil => simp [read_csv_column_rows]
  | cons header dataRows =>
    simp only [read_csv_column_rows]
    split <;> simp

/-- Claim C10: the extractor decodes its raw bytes strictly as UTF-8 before
anything else: on any byte input that is not valid UTF-8 it fails with the
decoding error, whatever the delimiter sniffing and CSV parsing (the `parse`
argument) would have produced — no partial result is ever computed. -/
theorem read_csv_column_by_name_decode_first (parse : List Nat → List (List String))
    (raw : List Nat) (column_name : String) (hbad : utf8Decode raw = none) :
    read_csv_column_by_name parse raw column_name = Except.error CsvError.decodeError := by
  simp [read_csv_column_by_name, hbad]

/-- Claim C10 witness: the lone byte `0xFF` is not valid UTF-8. -/
theorem read_csv_column_by_name_decode_first_witness :
    utf8Decode [0xFF] = none ∧
    read_csv_column_by_name (fun _ => [["Name", "Code"], ["A", "123"]]) [0xFF] "Code"
      = Except.error CsvError.decodeError :=
  ⟨by decide, read_csv_column_by_name_decode_first _ _ _ (by decide)⟩

/-- Claim C6 counterexample: the merge loop has no handler, so a failing
overlay build propagates the underlying exception unchanged.  Two documents
in which the failure occurs at different page indices (index 0 in the second
run, index 1 in the first) produce the *identical* error value, so the
propagated failure cannot carry the index of the failing page — it is the
raw library error, not a page-indexed wrapper. -/
theorem place_qrs_error_no_page_index :
    place_qrs_on_pdf_stream
        (fun r => if r = "x" then Except.error "boom" else Except.ok (some ⟨21, 21⟩))
        [⟨612, 792⟩, ⟨612, 792⟩] ["ok", "x"] 80 36 36 = Except.error "boom" ∧
    place_qrs_on_pdf_stream
        (fun r => if r = "x" then Except.error "boom" else Except.ok (some ⟨21, 21⟩))
        [⟨612, 792⟩, ⟨612, 792⟩] ["x", "ok"] 80 36 36 = Except.error "boom" :=
  ⟨by decide, by decide⟩

/-- The merge loop propagates the first failing page's underlying error:
if every earlier non-empty payload encodes successfully and pair `i` has a
non-empty stripped payload whose encoding raises `e`, the whole loop returns
`e` — no partial output. -/
theorem mergePages_first_error (encode : String → Except String (Option Drawing))
    (s x y : ℚ) (e : String) :
    ∀ (l : List (String × SrcPage)) (i : ℕ), i < l.length →
      (∀ j, j < i → pyStrip (l.getD j ("", default)).1 ≠ "" →
        ∃ v, encode (l.getD j ("", default)).1 = Except.ok v) →
      pyStrip (l.getD i ("", default)).1 ≠ "" →
      encode (l.getD i ("", default)).1 = Except.error e →
      mergePages encode s x y l = Except.error e := by
  intro l
  induction l with
  | nil => intro i hi; simp at hi
  | cons hd t ih =>
    obtain ⟨row, page⟩ := hd
    intro i hi hok hnz hfail
    cases i with
    | zero =>
      simp only [List.getD_cons_zero] at hnz hfail
      have hrow : row ≠ "" ∧ pyStrip row ≠ "" := ⟨ne_empty_of_pyStrip_ne_empty hnz, hnz⟩
      simp only [mergePages, if_pos hrow, hfail]
    | succ n =>
      simp only [List.getD_cons_succ] at hnz hfail
      have hrec : mergePages encode s x y t = Except.error e :=
        ih n (by simpa using hi)
          (fun j hj => by
            have := hok (j + 1) (by omega)
            simpa [List.getD_cons_succ] using this)
          hnz hfail
      by_cases hrow : row ≠ "" ∧ pyStrip row ≠ ""
      · obtain ⟨v, hv⟩ := hok 0 (by omega) (by simpa using hrow.2)
        simp only [List.getD_cons_zero] at hv
        simp only [mergePages, if_pos hrow, hv, hrec]
      · simp only [mergePages, if_neg hrow, hrec]

/-- Claim C6, amended: when the column-value count matches the page count and
building the overlay for the first affected page `i` fails (its payload
strips non-empty, every earlier non-empty payload encodes fine, and the
pipeline raises `e` on payload `i`), `place_qrs_on_pdf_stream` aborts the
whole merge and propagates that underlying error unchanged — all-or-nothing,
never silently swallowed, but the error carries no page index and is not a
dedicated page-composite error kind. -/
theorem place_qrs_propagates_first_failure
    (encode : String → Except String (Option Drawing))
    (pages : List SrcPage) (rows : List String) (s x y : ℚ) (i : ℕ) (e : String)
    (hlen : rows.length = pages.length) (hi : i < rows.length)
    (hok : ∀ j, j < i → pyStrip (rows.getD j "") ≠ "" →
      ∃ v, encode (rows.getD j "") = Except.ok v)
    (hnz : pyStrip (rows.getD i "") ≠ "")
    (hfail : encode (rows.getD i "") = Except.error e) :
    place_qrs_on_pdf_stream encode pages rows s x y = Except.error e := by
  have hip : i < pages.length := by omega
  have hiz : i < (rows.zip pages).length := by simp [List.length_zip]; omega
  have hmain := mergePages_first_error encode s x y e (rows.zip pages) i hiz
    (fun j hj => by
      have hjr : j < rows.length := by omega
      have hjp : j < pages.length := by omega
      rw [getD_zip_of_lt rows pages j hjr hjp]
      exact hok j hj)
    (by rwa [getD_zip_of_lt rows pages i hi hip])
    (by rwa [getD_zip_of_lt rows pages i hi hip])
  simp only [place_qrs_on_pdf_stream, if_neg (by omega : ¬ rows.length ≠ pages.length)]
  exact hmain

/-- Claim C6 (amended) witness: a 2-page document whose second payload makes
the pipeline raise `"boom"`; the merge returns exactly that error. -/
theorem place_qrs_propagates_first_failure_witness :
    (["ok", "x"] : List String).length = ([⟨612, 792⟩, ⟨612, 792⟩] : List SrcPage).length ∧
    pyStrip ((["ok", "x"] : List String).getD 1 "") ≠ "" ∧
    (fun r => if r = "x" then Except.error "boom" else Except.ok (some (⟨21, 21⟩ : Drawing))) ((["ok", "x"] : List String).getD 1 "") = Except.error "boom" ∧
    place_qrs_on_pdf_stream
        (fun r => if r = "x" then Except.error "boom" else Except.ok (some ⟨21, 21⟩))
        [⟨612, 792⟩, ⟨612, 792⟩] ["ok", "x"] 80 36 36 = Except.error "boom" :=
  ⟨rfl, by decide, by decide,
    place_qrs_propagates_first_failure _ _ _ _ _ _ 1 "boom" rfl (by decide)
      (fun j hj _ => ⟨some ⟨21, 21⟩, by
        have : j = 0 := by omega
        subst this
        decide⟩)
      (by decide) (by decide)⟩
